import Mathlib

/-!
Verification of the warranty-registration automation service.

This file gives a shallow embedding of the parts of the JavaScript source
that the checked properties are about:

* `src/utils/certificateCleanup.js` — certificate retention bookkeeping
  (`CertificateCleanup.shouldDeleteFile`, `recordWebhookDelivery`,
  `deleteFile`, `runCleanup`, `cleanupOrphanedMetadata`);
* `src/utils/browser.js` — `BrowserManager.close`;
* `src/daikinAutomation.js` — the form-automation driver (constructor
  normalization, `addProduct` / `addAllProducts`, `fillCustomerDetails`,
  `fillDealerBuilderInfo`) and the dialog-drain loop of
  `completeRegistration`;
* `src/utils/daikinUtils.js` — `clickFirstVisible`, `getFirstVisible`,
  `fillInput`, `handleDialogs`;
* `src/utils/formUtils.js` — `FormInteractions.typeIntoField`.

Timestamps are modelled as integer milliseconds since the epoch (the JS
code compares `Date` objects, which compare by their millisecond value).
The browser page, the filesystem and the remote form are modelled as
explicit environments (functions supplied as parameters), so every
definition is executable.
-/

namespace CertificateCleanup

/-- One value of the persisted metadata map of `certificateCleanup.js`
(the map is keyed by certificate filename).  `webhookDeliveredAt` is
`none` when the JS field is `null`. -/
structure CertEntry where
  createdAt : Int
  webhookDelivered : Bool
  webhookDeliveredAt : Option Int
  customer : String
  productCount : Nat
  filePath : String
  deriving Repr, DecidableEq

/-- `CertificateCleanup.shouldDeleteFile(fileData, cutoffTime)`
(certificateCleanup.js lines 129-150).  `retentionMs` is
`this.retentionHours * 60 * 60 * 1000`, `now` is the value of
`new Date()` during the check, and `cutoffTime` is passed by
`runCleanup` as `now - retentionMs`.  Strategy 1: if the webhook was
delivered (and `webhookDeliveredAt` is non-null), delete when `now`
is past delivery time plus retention.  Strategy 2 (reached whenever
strategy 1 did not fire): delete when `createdAt < cutoffTime`. -/
def shouldDeleteFile (retentionMs now : Int) (fileData : CertEntry)
    (cutoffTime : Int) : Bool :=
  let strat1 :=
    match fileData.webhookDeliveredAt with
    | some t => fileData.webhookDelivered && decide (now > t + retentionMs)
    | none => false
  if strat1 then
    true
  else
    decide (fileData.createdAt < cutoffTime)

/-- Modelled from the spec: the deletion rule as the specification words
it — "deleted when its age (from delivery time if delivered, else from
creation time) exceeds a configured retention window".  This is the
comparison point for the retention claim, not a translation of the
code. -/
def specShouldDeleteFile (retentionMs now : Int) (fileData : CertEntry) : Bool :=
  let base :=
    if fileData.webhookDelivered then
      fileData.webhookDeliveredAt.getD fileData.createdAt
    else
      fileData.createdAt
  decide (now - base > retentionMs)

/-- The per-entry update performed by `recordWebhookDelivery` when the
looked-up filename matches. -/
def setDelivered (filename : String) (now : Int)
    (e : String × CertEntry) : String × CertEntry :=
  if e.1 = filename then
    (e.1, { e.2 with webhookDelivered := true, webhookDeliveredAt := some now })
  else
    e

/-- `CertificateCleanup.recordWebhookDelivery(filename)`
(certificateCleanup.js lines 48-62).  The metadata map is modelled as
an association list keyed by filename.  When cleanup is disabled the
method returns at once; otherwise it updates the entry for `filename`
only if one exists (`if (metadata[filename]) { ... }`), setting
`webhookDelivered = true` and `webhookDeliveredAt = now`. -/
def recordWebhookDelivery (enableCleanup : Bool)
    (metadata : List (String × CertEntry)) (filename : String) (now : Int) :
    List (String × CertEntry) :=
  if !enableCleanup then
    metadata
  else
    match metadata.lookup filename with
    | none => metadata
    | some _ => metadata.map (setDelivered filename now)

/-- State of one path on disk: absent, present and deletable, or present
but with `statSync`/`unlinkSync` throwing. -/
inductive FileFate where
  | missing
  | deletable (size : Nat)
  | undeletable (size : Nat)
  deriving Repr, DecidableEq

/-- `CertificateCleanup.deleteFile(filename, filePath)`
(certificateCleanup.js lines 157-175).  Returns
`(success, size, filesystem after the call)`.  A missing file is treated
as a successful deletion of size 0; a throwing `statSync`/`unlinkSync`
is caught and reported as `success: false, size: 0`. -/
def deleteFile (fs : String → FileFate) (filePath : String) :
    Bool × Nat × (String → FileFate) :=
  match fs filePath with
  | FileFate.missing => (true, 0, fs)
  | FileFate.deletable sz =>
      (true, sz, fun p => if p = filePath then FileFate.missing else fs p)
  | FileFate.undeletable _ => (false, 0, fs)

/-- Aggregate counters of `runCleanup` (certificateCleanup.js lines 75-79). -/
structure CleanupResults where
  cleaned : Nat
  errors : Nat
  totalSize : Nat
  deriving Repr, DecidableEq

/-- The `for (const [filename, data] of Object.entries(metadata))` loop of
`runCleanup` (certificateCleanup.js lines 86-107).  Entries due for
deletion are deleted; a successful deletion increments `cleaned`, adds
the size, and removes the entry from the metadata; a failed deletion
increments `errors` and keeps the entry.  Returns the counters, the
surviving metadata, and the filesystem after the deletions. -/
def runCleanupLoop (retentionMs now cutoffTime : Int) :
    (String → FileFate) → List (String × CertEntry) →
    CleanupResults × List (String × CertEntry) × (String → FileFate)
  | fs, [] => (⟨0, 0, 0⟩, [], fs)
  | fs, (fn, d) :: rest =>
    if shouldDeleteFile retentionMs now d cutoffTime then
      let r := deleteFile fs d.filePath
      if r.1 then
        let rec_ := runCleanupLoop retentionMs now cutoffTime r.2.2 rest
        (⟨rec_.1.cleaned + 1, rec_.1.errors, rec_.1.totalSize + r.2.1⟩,
         rec_.2.1, rec_.2.2)
      else
        let rec_ := runCleanupLoop retentionMs now cutoffTime r.2.2 rest
        (⟨rec_.1.cleaned, rec_.1.errors + 1, rec_.1.totalSize⟩,
         (fn, d) :: rec_.2.1, rec_.2.2)
    else
      let rec_ := runCleanupLoop retentionMs now cutoffTime fs rest
      (rec_.1, (fn, d) :: rec_.2.1, rec_.2.2)

/-- `CertificateCleanup.cleanupOrphanedMetadata(metadata)`
(certificateCleanup.js lines 181-192): drop every entry whose backing
file no longer exists. -/
def cleanupOrphanedMetadata (fs : String → FileFate)
    (metadata : List (String × CertEntry)) : List (String × CertEntry) :=
  metadata.filter fun e =>
    match fs e.2.filePath with
    | FileFate.missing => false
    | _ => true

/-- `CertificateCleanup.runCleanup()` (certificateCleanup.js lines 67-122):
when cleanup is disabled return `{cleaned: 0, errors: 0}` untouched;
otherwise run the deletion loop with `cutoffTime = now - retentionMs`,
then the orphaned-metadata pass, and persist the surviving map.
Returns the counters and the saved metadata. -/
def runCleanup (enableCleanup : Bool) (retentionMs now : Int)
    (fs : String → FileFate) (metadata : List (String × CertEntry)) :
    CleanupResults × List (String × CertEntry) :=
  if !enableCleanup then
    (⟨0, 0, 0⟩, metadata)
  else
    let cutoffTime := now - retentionMs
    let r := runCleanupLoop retentionMs now cutoffTime fs metadata
    (r.1, cleanupOrphanedMetadata r.2.2 r.2.1)

end CertificateCleanup

namespace BrowserManager

/-- The three resources torn down by `BrowserManager.close` (browser.js). -/
inductive Component where
  | page
  | context
  | browser
  deriving Repr, DecidableEq

/-- Session state at the moment `close()` is called.  For each resource:
`none` = absent (`null` handle), `some true` = present and its `close()`
resolves, `some false` = present and its `close()` rejects. -/
structure Session where
  page : Option Bool
  context : Option Bool
  browser : Option Bool
  deriving Repr, DecidableEq, Fintype

/-- The `try` block of `BrowserManager.close` (browser.js lines 516-535):
`if (this.page) await this.page.close(); if (this.context) ...;
if (this.browser) ...`.  A rejection anywhere jumps to the single
`catch`, which only logs.  The result is the list of components whose
`close()` completed, in execution order, paired with whether an
exception escaped `close()` to the caller. -/
def close (s : Session) : List Component × Bool :=
  let body : Except (List Component) (List Component) := do
    let l1 ← match s.page with
      | none => Except.ok ([] : List Component)
      | some true => Except.ok [Component.page]
      | some false => Except.error ([] : List Component)
    let l2 ← match s.context with
      | none => Except.ok l1
      | some true => Except.ok (l1 ++ [Component.context])
      | some false => Except.error l1
    match s.browser with
      | none => Except.ok l2
      | some true => Except.ok (l2 ++ [Component.browser])
      | some false => Except.error l2
  match body with
  | Except.ok l => (l, false)
  | Except.error l => (l, false)

/-- The components present in the session, in the order `close` visits
them. -/
def presentList (s : Session) : List Component :=
  (if s.page.isSome then [Component.page] else []) ++
  (if s.context.isSome then [Component.context] else []) ++
  (if s.browser.isSome then [Component.browser] else [])

/-- Whether the given component's own `close()` resolves in session `s`
(vacuously true when absent). -/
def closeSucceeds (s : Session) : Component → Bool
  | Component.page => s.page ≠ some false
  | Component.context => s.context ≠ some false
  | Component.browser => s.browser ≠ some false

end BrowserManager

namespace DaikinAutomation

/-- Char-wise uppercasing, modelling JavaScript
`String.prototype.toUpperCase()` on the ASCII range (`Char.toUpper`
leaves non-ASCII letters unchanged). -/
def jsToUpperCase (s : String) : String :=
  ⟨s.data.map Char.toUpper⟩

/-- A string is all-uppercase when uppercasing it changes nothing. -/
def isAllUpper (s : String) : Prop :=
  jsToUpperCase s = s

instance (s : String) : Decidable (isAllUpper s) := by
  unfold isAllUpper; infer_instance

/-- One `{serial, model}` element of `formData.products`. -/
structure Product where
  serial : String
  model : String
  deriving Repr, DecidableEq

/-- The `customer` object of the form data. -/
structure Customer where
  firstName : String
  lastName : String
  phone : String
  email : String
  address1 : String
  zipPostal : String
  city : String
  stateProvince : String
  deriving Repr, DecidableEq

/-- The `dealer` object of the form data. -/
structure Dealer where
  dealerZip : String
  dealerName : String
  dealerAddress : String
  dealerCity : String
  dealerState : String
  dealerPhone : String
  deriving Repr, DecidableEq

/-- The product normalization of the `DaikinAutomation` constructor
(daikinAutomation.js lines 16-22): serial and model are uppercased. -/
def normalizeProduct (p : Product) : Product :=
  { serial := jsToUpperCase p.serial, model := jsToUpperCase p.model }

/-- The customer normalization of the `DaikinAutomation` constructor
(daikinAutomation.js lines 24-34): `firstName`, `lastName`, `address1`,
`city`, `stateProvince` and `zipPostal` are uppercased; `phone` and
`email` are carried over unchanged. -/
def normalizeCustomer (c : Customer) : Customer :=
  { c with
    firstName := jsToUpperCase c.firstName
    lastName := jsToUpperCase c.lastName
    address1 := jsToUpperCase c.address1
    city := jsToUpperCase c.city
    stateProvince := jsToUpperCase c.stateProvince
    zipPostal := jsToUpperCase c.zipPostal }

/-- Outcome shown by the remote form after a serial is submitted in
`addProduct`: no error banner, the "unit has already been registered"
banner, or the "Serial # is invalid" banner. -/
inductive SerialOutcome where
  | ok
  | alreadyRegistered
  | invalidSerial
  deriving Repr, DecidableEq

/-- The `type` discriminant of the typed errors thrown by `addProduct`. -/
inductive ErrType where
  | ALREADY_REGISTERED
  | INVALID_SERIAL
  deriving Repr, DecidableEq

/-- The typed error object thrown by `addProduct` (daikinAutomation.js
lines 86-95 and 99-108): a discriminant plus the offending serial. -/
structure SerialError where
  type : ErrType
  serial : String
  deriving Repr, DecidableEq

/-- `DaikinAutomation.addProduct(product)` (daikinAutomation.js lines
73-119).  The serial is filled and submitted once (fill + Enter); the
page's reaction is the environment `remote`.  The already-registered
banner is checked first, then the invalid-serial banner; either check
throws the typed error (the surrounding `catch` rethrows both
unchanged).  The returned list records the serials submitted to the
form, in order. -/
def addProduct (remote : String → SerialOutcome) (p : Product) :
    Except SerialError Unit × List String :=
  let submitted := [p.serial]
  match remote p.serial with
  | SerialOutcome.alreadyRegistered =>
      (Except.error ⟨ErrType.ALREADY_REGISTERED, p.serial⟩, submitted)
  | SerialOutcome.invalidSerial =>
      (Except.error ⟨ErrType.INVALID_SERIAL, p.serial⟩, submitted)
  | SerialOutcome.ok => (Except.ok (), submitted)

/-- `DaikinAutomation.addAllProducts()` (daikinAutomation.js lines
121-135): `for (const product of this.formData.products) await
this.addProduct(product)` — the first throw aborts the loop and
propagates. -/
def addAllProducts (remote : String → SerialOutcome) :
    List Product → Except SerialError Unit × List String
  | [] => (Except.ok (), [])
  | p :: rest =>
    let r := addProduct remote p
    match r.1 with
    | Except.error e => (Except.error e, r.2)
    | Except.ok _ =>
      let r' := addAllProducts remote rest
      (r'.1, r.2 ++ r'.2)

/-- The free-text writes of `DaikinAutomation.fillCustomerDetails`
(daikinAutomation.js lines 188-245) as `(accessible field name, value)`
pairs in execution order.  `autofillCity` / `autofillState` are the
values the remote form's address-autofill left in the City and
State/Province fields after the postal code was entered (the JS reads
them back with `inputValue()`); the local values are written only when
the corresponding read-back is the empty string (`if (!cityValue)`). -/
def fillCustomerDetails (c : Customer) (autofillCity autofillState : String) :
    List (String × String) :=
  [("First Name", c.firstName),
   ("Last Name", c.lastName),
   ("Phone", c.phone),
   ("Email", c.email),
   ("Address1", c.address1),
   ("Zip/Postal Code", c.zipPostal)] ++
  (if autofillCity = "" then [("City", c.city)] else []) ++
  (if autofillState = "" then [("State/Province", c.stateProvince)] else [])

/-- The free-text writes of `DaikinAutomation.fillDealerBuilderInfo`
(daikinAutomation.js lines 247-289) as `(accessible field name, value)`
pairs in execution order: the dealer zip is filled as stored, the
dealer name, address, city and state are uppercased at the call site
(`.toUpperCase()`), and the dealer phone is filled as stored. -/
def fillDealerBuilderInfo (d : Dealer) : List (String × String) :=
  [("Dealer/Builder Zip code*", d.dealerZip),
   ("Dealer/Builder * (enter name", jsToUpperCase d.dealerName),
   ("Address", jsToUpperCase d.dealerAddress),
   ("City", jsToUpperCase d.dealerCity),
   ("State", jsToUpperCase d.dealerState),
   ("Dealer/Builder Phone*", d.dealerPhone)]

end DaikinAutomation

namespace DaikinUtils

/-- What the page offers for one selector: `none` when `waitForSelector`
times out (or returns nothing), otherwise the element's interaction
behaviour.  `clickOk` — `element.click()` resolves; `clickErrRetriable`
— the click rejection message mentions `viewport` or `intercepts`;
`forceOk` — the scripted `document.querySelector(sel).click()` fallback
finds the element and clicks it. -/
structure Elem where
  visible : Bool
  enabled : Bool
  clickOk : Bool
  clickErrRetriable : Bool
  forceOk : Bool
  deriving Repr, DecidableEq

/-- `clickFirstVisible(frame, selectors, {timeout, ensureEnabled,
forceFallback})` (daikinUtils.js lines 252-287).  Selectors are tried
in array order.  For each: wait for presence; check visibility and
(when `ensureEnabled`) enabled state; try the click; on a
viewport/interception click failure and with `forceFallback`, try the
forced click once.  The first selector whose click (normal or forced)
lands is returned — the thrown exhaustion error is modelled as `none`. -/
def clickFirstVisible (frame : String → Option Elem)
    (ensureEnabled forceFallback : Bool) : List String → Option String
  | [] => none
  | s :: rest =>
    match frame s with
    | none => clickFirstVisible frame ensureEnabled forceFallback rest
    | some e =>
      if e.visible && (!ensureEnabled || e.enabled) then
        if e.clickOk then some s
        else if forceFallback && e.clickErrRetriable && e.forceOk then some s
        else clickFirstVisible frame ensureEnabled forceFallback rest
      else clickFirstVisible frame ensureEnabled forceFallback rest

/-- Whether one selector lets `clickFirstVisible` finish: the element is
found, visible, enabled when that is required, and either the normal
click or (when enabled) the forced fallback lands. -/
def selectorSucceeds (frame : String → Option Elem)
    (ensureEnabled forceFallback : Bool) (s : String) : Bool :=
  match frame s with
  | none => false
  | some e =>
    e.visible && (!ensureEnabled || e.enabled) &&
      (e.clickOk || (forceFallback && e.clickErrRetriable && e.forceOk))

/-- `getFirstVisible(frame, selectors, {timeout})` (daikinUtils.js lines
297-309): return the first present and visible element (paired here
with the selector that found it); `null` after every selector failed. -/
def getFirstVisible (frame : String → Option Elem) :
    List String → Option (String × Elem)
  | [] => none
  | s :: rest =>
    match frame s with
    | none => getFirstVisible frame rest
    | some e => if e.visible then some (s, e) else getFirstVisible frame rest

/-- Whether one selector yields a present and visible element — the
condition under which `getFirstVisible` stops at it. -/
def elemVisible (frame : String → Option Elem) (s : String) : Bool :=
  match frame s with
  | none => false
  | some e => e.visible

/-- `fillInput(frame, selectors, value, {verify})` (daikinUtils.js lines
320-340), abstracted over the located element's behaviour:
`respond n` is the value the field shows after the `(n+1)`-th
click/selectText/fill of `value` (the target form's own JS may reformat
it).  Returns the value the field is left showing and how many times the
value was written.  With `verify`, a read-back mismatch triggers exactly
one re-entry whose outcome is accepted unchecked. -/
def fillInput (respond : Nat → String) (value : String) (verify : Bool) :
    String × Nat :=
  let first := respond 0
  if verify then
    if first ≠ value then (respond 1, 2) else (first, 1)
  else (first, 1)

/-- The dialog kinds `handleDialogs` knows how to dismiss, plus `other`
for any overlay it does not recognize. -/
inductive DialogKind where
  | contractor
  | okDialog
  | other
  deriving Repr, DecidableEq

/-- `handleDialogs(frame, {timeout, ignoreErrors})` (daikinUtils.js lines
350-403).  The chained overlays are modelled as a queue whose head is
the overlay currently shown.  One call runs the two handlers in order —
the Installing Contractor handler, then the OK handler — each clicking
its button when its dialog is the one visible (which lets the next
queued dialog surface).  Returns the remaining queue and whether any
handler fired (`dialogFound`); with nothing visible both handlers
return `false` and the probe reports `false` without throwing. -/
def handleDialogs (queue : List DialogKind) : List DialogKind × Bool :=
  let step1 :=
    match queue with
    | DialogKind.contractor :: rest => (rest, true)
    | q => (q, false)
  let step2 :=
    match step1.1 with
    | DialogKind.okDialog :: rest => (rest, true)
    | q => (q, false)
  (step2.1, step1.2 || step2.2)

/-- The dialog-drain loop of `DaikinAutomation.completeRegistration`
(the driver variant using `daikinUtils`, lines 312-325): starting from
`dialogsHandled = true, attempts = 0, maxAttempts = 3`, call
`handleDialogs` while the previous pass handled something and the
attempt budget remains.  `fuel` is the number of passes still allowed;
the flow runs it with `fuel = 3`.  Returns the dialogs still pending
when the loop stops. -/
def drainDialogs : Nat → List DialogKind → List DialogKind
  | 0, q => q
  | fuel + 1, q =>
    let r := handleDialogs q
    if r.2 then drainDialogs fuel r.1 else r.1

end DaikinUtils

namespace FormInteractions

/-- `FormInteractions.typeIntoField(selector, value, options)`
(formUtils.js lines 114-138), abstracted over the field's behaviour:
`respond n` is the value `field.inputValue()` would return after the
`(n+1)`-th `field.fill(value)` (the remote form may reformat what was
typed).  Returns the value the field is left showing and the number of
fills performed.  Without `verify` the first fill is accepted; with
`verify`, a read-back mismatch triggers exactly one clear-and-refill
whose result is accepted without a second check. -/
def typeIntoField (respond : Nat → String) (value : String) (verify : Bool) :
    String × Nat :=
  let first := respond 0
  if verify then
    if first ≠ value then (respond 1, 2) else (first, 1)
  else (first, 1)

end FormInteractions

theorem char_toNat_ofNat_of_valid {n : Nat} (h : n.isValidChar) :
    (Char.ofNat n).toNat = n := by
  simp [Char.ofNat, h, Char.ofNatAux, Char.toNat, UInt32.toNat]

theorem charToUpper_idem (c : Char) : c.toUpper.toUpper = c.toUpper := by
  unfold Char.toUpper
  by_cases h : c.toNat ≥ 97 ∧ c.toNat ≤ 122
  · rw [if_pos h]
    have hv : Nat.isValidChar (c.toNat - 32) := Or.inl (by omega)
    have ht : (Char.ofNat (c.toNat - 32)).toNat = c.toNat - 32 :=
      char_toNat_ofNat_of_valid hv
    rw [if_neg]
    rw [ht]
    omega
  · rw [if_neg h, if_neg h]

theorem jsToUpperCase_idem (s : String) :
    DaikinAutomation.jsToUpperCase (DaikinAutomation.jsToUpperCase s) =
      DaikinAutomation.jsToUpperCase s := by
  show String.mk (((s.data.map Char.toUpper)).map Char.toUpper) =
    String.mk (s.data.map Char.toUpper)
  rw [List.map_map]
  exact congrArg String.mk
    (List.map_congr_left fun c _ => charToUpper_idem c)

theorem isAllUpper_jsToUpperCase (s : String) :
    DaikinAutomation.isAllUpper (DaikinAutomation.jsToUpperCase s) :=
  jsToUpperCase_idem s

/-- Claim C1: evaluation of the retention rule at the input where the code
and the claim part ways.  With a 48-hour window (`172800000` ms), an
entry created 49 hours ago, delivered 1 hour ago: the claim (and the
spec-worded rule `specShouldDeleteFile`) measures age from the delivery
time and keeps the entry, but `shouldDeleteFile` falls through to the
creation-time check even for delivered entries and deletes it — the
next `runCleanup` pass removes the file and its metadata entry.  (The
undelivered 49-hour-old entry of the claim is indeed deleted: last
conjunct.) -/
theorem retention_delivered_entry_divergence :
    CertificateCleanup.shouldDeleteFile 172800000 1700000000000
      ⟨1699823600000, true, some 1699996400000, "DOE", 1, "cert.pdf"⟩
      (1700000000000 - 172800000) = true
  ∧ CertificateCleanup.specShouldDeleteFile 172800000 1700000000000
      ⟨1699823600000, true, some 1699996400000, "DOE", 1, "cert.pdf"⟩ = false
  ∧ CertificateCleanup.runCleanup true 172800000 1700000000000
      (fun _ => CertificateCleanup.FileFate.deletable 1000)
      [("cert.pdf",
        ⟨1699823600000, true, some 1699996400000, "DOE", 1, "cert.pdf"⟩)] =
      (⟨1, 0, 1000⟩, [])
  ∧ CertificateCleanup.shouldDeleteFile 172800000 1700000000000
      ⟨1699823600000, false, none, "DOE", 1, "cert.pdf"⟩
      (1700000000000 - 172800000) = true := by
  refine ⟨by decide, by decide, ?_, by decide⟩
  decide


theorem setDelivered_hit (fn : String) (now : Int)
    (v : CertificateCleanup.CertEntry) :
    CertificateCleanup.setDelivered fn now (fn, v) =
      (fn, { v with webhookDelivered := true, webhookDeliveredAt := some now }) := by
  simp [CertificateCleanup.setDelivered]

theorem setDelivered_miss (fn : String) (now : Int) (k : String)
    (v : CertificateCleanup.CertEntry) (h : k ≠ fn) :
    CertificateCleanup.setDelivered fn now (k, v) = (k, v) := by
  simp [CertificateCleanup.setDelivered, h]

theorem lookup_map_setDelivered_self
    (m : List (String × CertificateCleanup.CertEntry)) (fn : String) (now : Int) :
    (m.map (CertificateCleanup.setDelivered fn now)).lookup fn =
      (m.lookup fn).map fun e =>
        { e with webhookDelivered := true, webhookDeliveredAt := some now } := by
  induction m with
  | nil => rfl
  | cons hd tl ih =>
    obtain ⟨k0, v0⟩ := hd
    by_cases h : k0 = fn
    · subst h
      rw [List.map_cons, setDelivered_hit]
      simp [List.lookup]
    · rw [List.map_cons, setDelivered_miss fn now k0 v0 h]
      simp [List.lookup, beq_false_of_ne (Ne.symm h), ih]

theorem lookup_map_setDelivered_ne
    (m : List (String × CertificateCleanup.CertEntry)) (fn : String) (now : Int)
    (k : String) (h : k ≠ fn) :
    (m.map (CertificateCleanup.setDelivered fn now)).lookup k = m.lookup k := by
  induction m with
  | nil => rfl
  | cons hd tl ih =>
    obtain ⟨k0, v0⟩ := hd
    by_cases hfn : k0 = fn
    · subst hfn
      rw [List.map_cons, setDelivered_hit]
      simp [List.lookup, beq_false_of_ne h, ih]
    · rw [List.map_cons, setDelivered_miss fn now k0 v0 hfn]
      by_cases hk : k = k0
      · subst hk
        simp [List.lookup]
      · simp [List.lookup, beq_false_of_ne hk, ih]

/-- Claim C9: `recordWebhookDelivery` is a no-op for unknown certificates —
with no entry for the filename the metadata map is returned unchanged
(no entry is created); when an entry exists, that entry gets
`webhookDelivered = true` and `webhookDeliveredAt = now` while every
other field of it and every other entry is unchanged. -/
theorem recordWebhookDelivery_frame :
    (∀ (en : Bool) (m : List (String × CertificateCleanup.CertEntry))
        (fn : String) (now : Int),
        m.lookup fn = none →
        CertificateCleanup.recordWebhookDelivery en m fn now = m)
  ∧ (∀ (m : List (String × CertificateCleanup.CertEntry))
        (fn : String) (now : Int) (e : CertificateCleanup.CertEntry),
        m.lookup fn = some e →
        (CertificateCleanup.recordWebhookDelivery true m fn now).lookup fn =
          some { e with webhookDelivered := true, webhookDeliveredAt := some now }
        ∧ ∀ k, k ≠ fn →
            (CertificateCleanup.recordWebhookDelivery true m fn now).lookup k =
              m.lookup k) := by
  constructor
  · intro en m fn now h
    cases en with
    | false => rfl
    | true =>
      unfold CertificateCleanup.recordWebhookDelivery
      simp [h]
  · intro m fn now e h
    refine ⟨?_, ?_⟩
    · unfold CertificateCleanup.recordWebhookDelivery
      simp only [Bool.not_true, Bool.false_eq_true, if_false, h]
      rw [lookup_map_setDelivered_self, h]
      rfl
    · intro k hk
      unfold CertificateCleanup.recordWebhookDelivery
      simp only [Bool.not_true, Bool.false_eq_true, if_false, h]
      exact lookup_map_setDelivered_ne m fn now k hk

/-- Witness for C9 at a concrete map: an unknown filename leaves the map
untouched; a known one gets its delivery fields set. -/
theorem recordWebhookDelivery_frame_witness :
    CertificateCleanup.recordWebhookDelivery true
      [("a.pdf", ⟨0, false, none, "X", 1, "/d/a.pdf"⟩)] "b.pdf" 5 =
      [("a.pdf", ⟨0, false, none, "X", 1, "/d/a.pdf"⟩)]
  ∧ (CertificateCleanup.recordWebhookDelivery true
      [("a.pdf", ⟨0, false, none, "X", 1, "/d/a.pdf"⟩)] "a.pdf" 5).lookup "a.pdf" =
      some ⟨0, true, some 5, "X", 1, "/d/a.pdf"⟩ := by
  constructor
  · exact recordWebhookDelivery_frame.1 true
      [("a.pdf", ⟨0, false, none, "X", 1, "/d/a.pdf"⟩)] "b.pdf" 5 (by decide)
  · exact (recordWebhookDelivery_frame.2
      [("a.pdf", ⟨0, false, none, "X", 1, "/d/a.pdf"⟩)] "a.pdf" 5
      ⟨0, false, none, "X", 1, "/d/a.pdf"⟩ (by decide)).1

/-- Claim C10: deleting an already-missing certificate file counts as
success — `deleteFile` returns `success` with size 0 when the path does
not exist, and a cleanup pass over a due entry with a missing backing
file counts it as cleaned (not as an error) and drops it from the
metadata map. -/
theorem missing_file_delete_counts_cleaned :
    (∀ (fs : String → CertificateCleanup.FileFate) (p : String),
        fs p = CertificateCleanup.FileFate.missing →
        CertificateCleanup.deleteFile fs p = (true, 0, fs))
  ∧ (∀ (retentionMs now : Int) (fs : String → CertificateCleanup.FileFate)
        (fn : String) (d : CertificateCleanup.CertEntry),
        fs d.filePath = CertificateCleanup.FileFate.missing →
        CertificateCleanup.shouldDeleteFile retentionMs now d
          (now - retentionMs) = true →
        CertificateCleanup.runCleanup true retentionMs now fs [(fn, d)] =
          (⟨1, 0, 0⟩, [])) := by
  constructor
  · intro fs p h
    unfold CertificateCleanup.deleteFile
    rw [h]
  · intro retentionMs now fs fn d hmiss hdue
    unfold CertificateCleanup.runCleanup CertificateCleanup.runCleanupLoop
      CertificateCleanup.runCleanupLoop
    simp [hdue, CertificateCleanup.deleteFile, hmiss,
      CertificateCleanup.cleanupOrphanedMetadata]

/-- Witness for C10: a due, undelivered entry whose file is gone is
counted as cleaned with no error and removed from the map. -/
theorem missing_file_delete_counts_cleaned_witness :
    CertificateCleanup.deleteFile
      (fun _ => CertificateCleanup.FileFate.missing) "gone.pdf" =
      (true, 0, fun _ => CertificateCleanup.FileFate.missing)
  ∧ CertificateCleanup.runCleanup true 172800000 1700000000000
      (fun _ => CertificateCleanup.FileFate.missing)
      [("gone.pdf", ⟨0, false, none, "X", 1, "gone.pdf"⟩)] =
      (⟨1, 0, 0⟩, []) := by
  constructor
  · exact missing_file_delete_counts_cleaned.1
      (fun _ => CertificateCleanup.FileFate.missing) "gone.pdf" rfl
  · exact missing_file_delete_counts_cleaned.2 172800000 1700000000000
      (fun _ => CertificateCleanup.FileFate.missing) "gone.pdf"
      ⟨0, false, none, "X", 1, "gone.pdf"⟩ rfl (by decide)

/-- Claim C2: serial business errors are fail-fast and untried.  For a
product list `l₁ ++ p :: l₂` in which every product before `p` is
accepted, if the remote form reports `p`'s serial as already registered
(resp. invalid), `addAllProducts` ends with the typed error
`ALREADY_REGISTERED` (resp. `INVALID_SERIAL`) carrying that serial, and
the submission log is exactly the serials of `l₁` followed by one
submission of `p.serial` — no product of `l₂` is submitted and the
failed serial is not re-submitted. -/
theorem addAllProducts_fail_fast :
    ∀ (remote : String → DaikinAutomation.SerialOutcome)
      (l₁ : List DaikinAutomation.Product) (p : DaikinAutomation.Product)
      (l₂ : List DaikinAutomation.Product),
      (∀ q ∈ l₁, remote q.serial = DaikinAutomation.SerialOutcome.ok) →
      (remote p.serial = DaikinAutomation.SerialOutcome.alreadyRegistered →
        DaikinAutomation.addAllProducts remote (l₁ ++ p :: l₂) =
          (Except.error ⟨DaikinAutomation.ErrType.ALREADY_REGISTERED, p.serial⟩,
            l₁.map DaikinAutomation.Product.serial ++ [p.serial]))
      ∧ (remote p.serial = DaikinAutomation.SerialOutcome.invalidSerial →
        DaikinAutomation.addAllProducts remote (l₁ ++ p :: l₂) =
          (Except.error ⟨DaikinAutomation.ErrType.INVALID_SERIAL, p.serial⟩,
            l₁.map DaikinAutomation.Product.serial ++ [p.serial])) := by
  intro remote l₁ p l₂ hok
  induction l₁ with
  | nil =>
    constructor <;> intro h <;>
      simp [DaikinAutomation.addAllProducts, DaikinAutomation.addProduct, h]
  | cons q tl ih =>
    have hq : remote q.serial = DaikinAutomation.SerialOutcome.ok :=
      hok q (by simp)
    have htl : ∀ r ∈ tl, remote r.serial = DaikinAutomation.SerialOutcome.ok :=
      fun r hr => hok r (by simp [hr])
    obtain ⟨ih1, ih2⟩ := ih htl
    constructor <;> intro h
    · simp [DaikinAutomation.addAllProducts, DaikinAutomation.addProduct,
        hq, ih1 h]
    · simp [DaikinAutomation.addAllProducts, DaikinAutomation.addProduct,
        hq, ih2 h]

/-- Witness for C2: with a remote form rejecting "BAD" as already
registered and "UGLY" as invalid, the run stops at the bad serial with
the matching typed error; the later product is never submitted. -/
theorem addAllProducts_fail_fast_witness :
    DaikinAutomation.addAllProducts
      (fun s => if s = "BAD" then DaikinAutomation.SerialOutcome.alreadyRegistered
        else if s = "UGLY" then DaikinAutomation.SerialOutcome.invalidSerial
        else DaikinAutomation.SerialOutcome.ok)
      [⟨"GOOD", "M1"⟩, ⟨"BAD", "M2"⟩, ⟨"NEVER", "M3"⟩] =
      (Except.error ⟨DaikinAutomation.ErrType.ALREADY_REGISTERED, "BAD"⟩,
        ["GOOD", "BAD"])
  ∧ DaikinAutomation.addAllProducts
      (fun s => if s = "BAD" then DaikinAutomation.SerialOutcome.alreadyRegistered
        else if s = "UGLY" then DaikinAutomation.SerialOutcome.invalidSerial
        else DaikinAutomation.SerialOutcome.ok)
      [⟨"GOOD", "M1"⟩, ⟨"UGLY", "M2"⟩, ⟨"NEVER", "M3"⟩] =
      (Except.error ⟨DaikinAutomation.ErrType.INVALID_SERIAL, "UGLY"⟩,
        ["GOOD", "UGLY"]) := by
  constructor
  · exact (addAllProducts_fail_fast _ [⟨"GOOD", "M1"⟩] ⟨"BAD", "M2"⟩
      [⟨"NEVER", "M3"⟩] (by decide)).1 (by decide)
  · exact (addAllProducts_fail_fast _ [⟨"GOOD", "M1"⟩] ⟨"UGLY", "M2"⟩
      [⟨"NEVER", "M3"⟩] (by decide)).2 (by decide)

/-- Counterexample to claim C3 as stated: the email field is a free-text
customer field listed by the claim, yet the constructor normalization
leaves `email` (and `phone`) untouched, so a mixed-case email is typed
into the form exactly as supplied — not all-uppercase. -/
theorem email_typed_lowercase :
    ("Email", "jane.doe@example.com") ∈
      DaikinAutomation.fillCustomerDetails
        (DaikinAutomation.normalizeCustomer
          ⟨"Jane", "Doe", "613-555-0100", "jane.doe@example.com",
            "12 Main St", "k1a 0b1", "ottawa", "on"⟩) "" ""
  ∧ ¬ DaikinAutomation.isAllUpper "jane.doe@example.com" := by
  constructor
  · decide
  · decide

/-- Claim C3 (amended): every free-text customer and dealer field value
written into the form is all-uppercase at the time it is typed, except
the customer phone and email and the dealer zip and phone, which are
typed exactly as supplied. -/
theorem typed_fields_uppercase_except_contact :
    ∀ (c : DaikinAutomation.Customer) (d : DaikinAutomation.Dealer)
      (autofillCity autofillState : String) (f v : String),
      (((f, v) ∈ DaikinAutomation.fillCustomerDetails
          (DaikinAutomation.normalizeCustomer c) autofillCity autofillState) →
        f ≠ "Phone" → f ≠ "Email" → DaikinAutomation.isAllUpper v)
      ∧ (((f, v) ∈ DaikinAutomation.fillDealerBuilderInfo d) →
        f ≠ "Dealer/Builder Zip code*" → f ≠ "Dealer/Builder Phone*" →
        DaikinAutomation.isAllUpper v) := by
  intro c d a b f v
  constructor
  · intro hmem hphone hemail
    by_cases ha : a = "" <;> by_cases hb : b = "" <;>
      simp [DaikinAutomation.fillCustomerDetails,
        DaikinAutomation.normalizeCustomer, ha, hb] at hmem
    · rcases hmem with ⟨hf, hv⟩ | ⟨hf, hv⟩ | ⟨hf, hv⟩ | ⟨hf, hv⟩ | ⟨hf, hv⟩ |
        ⟨hf, hv⟩ | ⟨hf, hv⟩ | ⟨hf, hv⟩ <;>
        first
          | (exact absurd hf hphone)
          | (exact absurd hf hemail)
          | (subst hv; exact isAllUpper_jsToUpperCase _)
    · rcases hmem with ⟨hf, hv⟩ | ⟨hf, hv⟩ | ⟨hf, hv⟩ | ⟨hf, hv⟩ | ⟨hf, hv⟩ |
        ⟨hf, hv⟩ | ⟨hf, hv⟩ <;>
        first
          | (exact absurd hf hphone)
          | (exact absurd hf hemail)
          | (subst hv; exact isAllUpper_jsToUpperCase _)
    · rcases hmem with ⟨hf, hv⟩ | ⟨hf, hv⟩ | ⟨hf, hv⟩ | ⟨hf, hv⟩ | ⟨hf, hv⟩ |
        ⟨hf, hv⟩ | ⟨hf, hv⟩ <;>
        first
          | (exact absurd hf hphone)
          | (exact absurd hf hemail)
          | (subst hv; exact isAllUpper_jsToUpperCase _)
    · rcases hmem with ⟨hf, hv⟩ | ⟨hf, hv⟩ | ⟨hf, hv⟩ | ⟨hf, hv⟩ | ⟨hf, hv⟩ |
        ⟨hf, hv⟩ <;>
        first
          | (exact absurd hf hphone)
          | (exact absurd hf hemail)
          | (subst hv; exact isAllUpper_jsToUpperCase _)
  · intro hmem hzip hphone
    simp [DaikinAutomation.fillDealerBuilderInfo] at hmem
    rcases hmem with ⟨hf, hv⟩ | ⟨hf, hv⟩ | ⟨hf, hv⟩ | ⟨hf, hv⟩ | ⟨hf, hv⟩ |
      ⟨hf, hv⟩ <;>
      first
        | (exact absurd hf hzip)
        | (exact absurd hf hphone)
        | (subst hv; exact isAllUpper_jsToUpperCase _)

/-- Witness for the amended C3: a lowercase first name is typed
uppercased, and a lowercase dealer city is typed uppercased. -/
theorem typed_fields_uppercase_witness :
    DaikinAutomation.isAllUpper "JANE" ∧ DaikinAutomation.isAllUpper "OTTAWA" := by
  constructor
  · exact (typed_fields_uppercase_except_contact
      ⟨"jane", "doe", "613-555-0100", "jane.doe@example.com",
        "12 main st", "k1a 0b1", "ottawa", "on"⟩
      ⟨"K2M 2G8", "Comfort Hub", "65 Denzil Doyle Ct", "ottawa", "on",
        "613-581-1770"⟩
      "" "" "First Name" "JANE").1 (by decide) (by decide) (by decide)
  · exact (typed_fields_uppercase_except_contact
      ⟨"jane", "doe", "613-555-0100", "jane.doe@example.com",
        "12 main st", "k1a 0b1", "ottawa", "on"⟩
      ⟨"K2M 2G8", "Comfort Hub", "65 Denzil Doyle Ct", "ottawa", "on",
        "613-581-1770"⟩
      "" "" "City" "OTTAWA").2 (by decide) (by decide) (by decide)

/-- Claim C7: autofill is never overwritten.  During customer-details
entry, the local city (resp. state/province) value is written only when
the autofill left the field blank; when the autofill produced a
non-empty value, no write to that field occurs anywhere in the step. -/
theorem autofill_never_overwritten :
    ∀ (c : DaikinAutomation.Customer) (autofillCity autofillState : String),
      (autofillCity ≠ "" → ∀ v, ("City", v) ∉
        DaikinAutomation.fillCustomerDetails c autofillCity autofillState)
      ∧ (autofillState ≠ "" → ∀ v, ("State/Province", v) ∉
        DaikinAutomation.fillCustomerDetails c autofillCity autofillState)
      ∧ (autofillCity = "" → ("City", c.city) ∈
        DaikinAutomation.fillCustomerDetails c autofillCity autofillState)
      ∧ (autofillState = "" → ("State/Province", c.stateProvince) ∈
        DaikinAutomation.fillCustomerDetails c autofillCity autofillState) := by
  intro c a b
  refine ⟨?_, ?_, ?_, ?_⟩
  · intro ha v hmem
    by_cases hb : b = "" <;>
      simp [DaikinAutomation.fillCustomerDetails, ha, hb] at hmem
  · intro hb v hmem
    by_cases ha : a = "" <;>
      simp [DaikinAutomation.fillCustomerDetails, ha, hb] at hmem
  · intro ha
    by_cases hb : b = "" <;>
      simp [DaikinAutomation.fillCustomerDetails, ha, hb]
  · intro hb
    by_cases ha : a = "" <;>
      simp [DaikinAutomation.fillCustomerDetails, ha, hb]

/-- Witness for C7: with the autofill having filled the city ("KANATA")
but not the state, the step never writes the local city but does write
the local state. -/
theorem autofill_never_overwritten_witness :
    ("City", "OTTAWA") ∉
      DaikinAutomation.fillCustomerDetails
        ⟨"JANE", "DOE", "613-555-0100", "jane.doe@example.com",
          "12 MAIN ST", "K1A 0B1", "OTTAWA", "ON"⟩ "KANATA" ""
  ∧ ("State/Province", "ON") ∈
      DaikinAutomation.fillCustomerDetails
        ⟨"JANE", "DOE", "613-555-0100", "jane.doe@example.com",
          "12 MAIN ST", "K1A 0B1", "OTTAWA", "ON"⟩ "KANATA" "" := by
  constructor
  · exact (autofill_never_overwritten
      ⟨"JANE", "DOE", "613-555-0100", "jane.doe@example.com",
        "12 MAIN ST", "K1A 0B1", "OTTAWA", "ON"⟩ "KANATA" "").1
      (by decide) "OTTAWA"
  · exact (autofill_never_overwritten
      ⟨"JANE", "DOE", "613-555-0100", "jane.doe@example.com",
        "12 MAIN ST", "K1A 0B1", "OTTAWA", "ON"⟩ "KANATA" "").2.2.2 rfl

theorem cfv_skip (frame : String → Option DaikinUtils.Elem) (ee ff : Bool)
    (s : String) (l : List String)
    (h : DaikinUtils.selectorSucceeds frame ee ff s = false) :
    DaikinUtils.clickFirstVisible frame ee ff (s :: l) =
      DaikinUtils.clickFirstVisible frame ee ff l := by
  unfold DaikinUtils.selectorSucceeds at h
  simp only [DaikinUtils.clickFirstVisible]
  cases hf : frame s with
  | none => rfl
  | some e =>
    rw [hf] at h
    cases hvis : (e.visible && (!ee || e.enabled)) with
    | false => simp [hvis]
    | true =>
      replace h : (e.visible && (!ee || e.enabled) &&
        (e.clickOk || ff && e.clickErrRetriable && e.forceOk)) = false := h
      rw [hvis, Bool.true_and] at h
      rw [Bool.or_eq_false_iff] at h
      simp [hvis, h.1, h.2]

theorem cfv_hit (frame : String → Option DaikinUtils.Elem) (ee ff : Bool)
    (s : String) (l : List String)
    (h : DaikinUtils.selectorSucceeds frame ee ff s = true) :
    DaikinUtils.clickFirstVisible frame ee ff (s :: l) = some s := by
  unfold DaikinUtils.selectorSucceeds at h
  simp only [DaikinUtils.clickFirstVisible]
  cases hf : frame s with
  | none => rw [hf] at h; simp at h
  | some e =>
    rw [hf] at h
    replace h : (e.visible && (!ee || e.enabled) &&
      (e.clickOk || ff && e.clickErrRetriable && e.forceOk)) = true := h
    rw [Bool.and_eq_true] at h
    obtain ⟨hvis, hrest⟩ := h
    cases hc : e.clickOk with
    | true => simp [hvis, hc]
    | false =>
      rw [Bool.or_eq_true] at hrest
      rcases hrest with hck | hforce
      · rw [hc] at hck; simp at hck
      · simp [hvis, hc, hforce]

theorem gfv_skip (frame : String → Option DaikinUtils.Elem) (s : String)
    (l : List String) (h : DaikinUtils.elemVisible frame s = false) :
    DaikinUtils.getFirstVisible frame (s :: l) =
      DaikinUtils.getFirstVisible frame l := by
  unfold DaikinUtils.elemVisible at h
  simp only [DaikinUtils.getFirstVisible]
  cases hf : frame s with
  | none => rfl
  | some e =>
    rw [hf] at h
    replace h : e.visible = false := h
    simp [h]

theorem gfv_hit (frame : String → Option DaikinUtils.Elem) (s : String)
    (l : List String) (e : DaikinUtils.Elem) (hf : frame s = some e)
    (hv : e.visible = true) :
    DaikinUtils.getFirstVisible frame (s :: l) = some (s, e) := by
  simp only [DaikinUtils.getFirstVisible]
  rw [hf]
  simp [hv]

/-- Claim C4: selector fallback ordering and exhaustion.  For
`clickFirstVisible`: if every selector before `s` fails and `s` names a
visible (and, when `ensureEnabled`, enabled) clickable element, the
lookup returns `s` — the winning strategy — regardless of what follows;
and when every selector in the list fails the lookup fails (the thrown
error, modelled as `none`) only after the whole list is exhausted.  The
same first-match/exhaustion discipline holds for `getFirstVisible`
(which checks visibility only and returns `null` on exhaustion). -/
theorem locator_fallback_order :
    (∀ (frame : String → Option DaikinUtils.Elem) (ee ff : Bool)
        (l₁ : List String) (s : String) (l₂ : List String),
        (∀ t ∈ l₁, DaikinUtils.selectorSucceeds frame ee ff t = false) →
        DaikinUtils.selectorSucceeds frame ee ff s = true →
        DaikinUtils.clickFirstVisible frame ee ff (l₁ ++ s :: l₂) = some s)
  ∧ (∀ (frame : String → Option DaikinUtils.Elem) (ee ff : Bool)
        (l : List String),
        (∀ t ∈ l, DaikinUtils.selectorSucceeds frame ee ff t = false) →
        DaikinUtils.clickFirstVisible frame ee ff l = none)
  ∧ (∀ (frame : String → Option DaikinUtils.Elem)
        (l₁ : List String) (s : String) (l₂ : List String)
        (e : DaikinUtils.Elem),
        (∀ t ∈ l₁, DaikinUtils.elemVisible frame t = false) →
        frame s = some e → e.visible = true →
        DaikinUtils.getFirstVisible frame (l₁ ++ s :: l₂) = some (s, e))
  ∧ (∀ (frame : String → Option DaikinUtils.Elem) (l : List String),
        (∀ t ∈ l, DaikinUtils.elemVisible frame t = false) →
        DaikinUtils.getFirstVisible frame l = none) := by
  refine ⟨?_, ?_, ?_, ?_⟩
  · intro frame ee ff l₁ s l₂ hfail hs
    induction l₁ with
    | nil => exact cfv_hit frame ee ff s l₂ hs
    | cons t tl ih =>
      rw [List.cons_append, cfv_skip frame ee ff t _ (hfail t (by simp))]
      exact ih (fun u hu => hfail u (by simp [hu]))
  · intro frame ee ff l hfail
    induction l with
    | nil => rfl
    | cons t tl ih =>
      rw [cfv_skip frame ee ff t tl (hfail t (by simp))]
      exact ih (fun u hu => hfail u (by simp [hu]))
  · intro frame l₁ s l₂ e hfail hfs hv
    induction l₁ with
    | nil => exact gfv_hit frame s l₂ e hfs hv
    | cons t tl ih =>
      rw [List.cons_append, gfv_skip frame t _ (hfail t (by simp))]
      exact ih (fun u hu => hfail u (by simp [hu]))
  · intro frame l hfail
    induction l with
    | nil => rfl
    | cons t tl ih =>
      rw [gfv_skip frame t tl (hfail t (by simp))]
      exact ih (fun u hu => hfail u (by simp [hu]))

/-- Witness for C4: a page where the first-priority (role-based) selector
is absent but the second (CSS) selector matches a visible, enabled
element — the CSS selector wins and is reported; on a page offering
nothing, the lookup exhausts the whole list and fails. -/
theorem locator_fallback_order_witness :
    DaikinUtils.clickFirstVisible
      (fun s => if s = "css.path" then some ⟨true, true, true, false, false⟩
        else none)
      true true ["role.name", "css.path", "nth.input"] = some "css.path"
  ∧ DaikinUtils.clickFirstVisible (fun _ => none) true true
      ["role.name", "css.path"] = none
  ∧ DaikinUtils.getFirstVisible
      (fun s => if s = "css.path" then some ⟨true, true, true, false, false⟩
        else none)
      ["role.name", "css.path", "nth.input"] =
      some ("css.path", ⟨true, true, true, false, false⟩) := by
  refine ⟨?_, ?_, ?_⟩
  · exact locator_fallback_order.1
      (fun s => if s = "css.path" then some ⟨true, true, true, false, false⟩
        else none)
      true true ["role.name"] "css.path" ["nth.input"] (by decide) (by decide)
  · exact locator_fallback_order.2.1 (fun _ => none) true true
      ["role.name", "css.path"] (by decide)
  · exact locator_fallback_order.2.2.1
      (fun s => if s = "css.path" then some ⟨true, true, true, false, false⟩
        else none)
      ["role.name"] "css.path" ["nth.input"] ⟨true, true, true, false, false⟩
      (by decide) (by decide) (by decide)

/-- Claim C5: verified field writes retry exactly once.  For both
`typeIntoField` (formUtils.js) and `fillInput` (daikinUtils.js) with
`verify` enabled: when the read-back after the first write matches, one
write happened and the field shows the value; on mismatch the write is
re-attempted exactly once more and the second write's outcome is
accepted as-is, with no further verification or retry.  Without
`verify` a single write is performed unchecked. -/
theorem verified_write_retries_once :
    ∀ (respond : Nat → String) (value : String),
      (FormInteractions.typeIntoField respond value false = (respond 0, 1))
      ∧ (respond 0 = value →
          FormInteractions.typeIntoField respond value true = (value, 1))
      ∧ (respond 0 ≠ value →
          FormInteractions.typeIntoField respond value true = (respond 1, 2))
      ∧ (DaikinUtils.fillInput respond value false = (respond 0, 1))
      ∧ (respond 0 = value →
          DaikinUtils.fillInput respond value true = (value, 1))
      ∧ (respond 0 ≠ value →
          DaikinUtils.fillInput respond value true = (respond 1, 2)) := by
  intro respond value
  refine ⟨rfl, ?_, ?_, rfl, ?_, ?_⟩ <;> intro h <;>
    simp [FormInteractions.typeIntoField, DaikinUtils.fillInput, h]

/-- Witness for C5: a phone-mask field that reformats the first write is
re-written once and the reformatted second result is accepted (2 writes);
a field that echoes the value verifies on the first try (1 write). -/
theorem verified_write_retries_once_witness :
    FormInteractions.typeIntoField
      (fun n => if n = 0 then "6135550100" else "(613) 555-0100")
      "613-555-0100" true = ("(613) 555-0100", 2)
  ∧ DaikinUtils.fillInput (fun _ => "JANE") "JANE" true = ("JANE", 1) := by
  constructor
  · exact (verified_write_retries_once
      (fun n => if n = 0 then "6135550100" else "(613) 555-0100")
      "613-555-0100").2.2.1 (by decide)
  · exact (verified_write_retries_once (fun _ => "JANE") "JANE").2.2.2.2.1 rfl

/-- Claim C6: overlay absorption before download.  After the final
confirmation click the resolver runs in a loop bounded at 3 passes,
stopping early when a pass finds no overlay: any chained sequence of 0,
1 or 3 dialogs of the known kinds (Installing Contractor, OK) is fully
drained before the download step; and with no dialog pending a single
probe finds nothing, reports `false` without raising, and the flow
proceeds. -/
theorem dialog_drain_bounded :
    (∀ q : List DaikinUtils.DialogKind,
      (∀ d ∈ q, d = DaikinUtils.DialogKind.contractor ∨
        d = DaikinUtils.DialogKind.okDialog) →
      (q.length = 0 ∨ q.length = 1 ∨ q.length = 3) →
      DaikinUtils.drainDialogs 3 q = [])
  ∧ DaikinUtils.handleDialogs [] = ([], false) := by
  constructor
  · intro q hk hl
    rcases q with _ | ⟨a, _ | ⟨b, _ | ⟨c, _ | ⟨d, tl⟩⟩⟩⟩
    · rfl
    · rcases hk a (by simp) with h | h <;> subst h <;> rfl
    · simp at hl
    · rcases hk a (by simp) with ha | ha <;>
        rcases hk b (by simp) with hb | hb <;>
        rcases hk c (by simp) with hc | hc <;>
        subst ha <;> subst hb <;> subst hc <;> rfl
    · simp at hl
  · rfl

/-- Witness for C6: a chain of three dialogs (contractor, OK, contractor)
queued after the final confirmation is fully drained by the 3-pass
loop. -/
theorem dialog_drain_bounded_witness :
    DaikinUtils.drainDialogs 3
      [DaikinUtils.DialogKind.contractor, DaikinUtils.DialogKind.okDialog,
        DaikinUtils.DialogKind.contractor] = [] := by
  exact dialog_drain_bounded.1
    [DaikinUtils.DialogKind.contractor, DaikinUtils.DialogKind.okDialog,
      DaikinUtils.DialogKind.contractor] (by decide) (by decide)

/-- Counterexample to claim C8 as stated: in the session state where the
page is present but its `close()` rejects while context and browser are
present and closable, `close` swallows the rejection inside its single
`try/catch` and returns having closed nothing — the browsing context
and the browser process are never torn down, although the claim asserts
all three are. -/
theorem close_skips_rest_after_failure :
    BrowserManager.close ⟨some false, some true, some true⟩ = ([], false)
  ∧ BrowserManager.Component.browser ∉
      (BrowserManager.close ⟨some false, some true, some true⟩).1 := by
  decide

/-- Claim C8 (amended): for every session state, `close()` never throws
past the caller (any teardown failure is caught and only logged), and
the resources actually closed are exactly the longest prefix — in
page, context, browser order — of the present resources whose own
`close()` calls succeed: a failing close aborts the remaining teardown
steps. -/
theorem close_teardown_order_never_throws :
    ∀ s : BrowserManager.Session,
      BrowserManager.close s =
        ((BrowserManager.presentList s).takeWhile (BrowserManager.closeSucceeds s),
          false) := by
  decide
